import Mathlib

/-!
Shallow embedding of the Samsung TV remote-control repository
(`samsung_remote.py`, `tv_controller.py`, `play_iplayer.py`) and proofs
about its connection handshake, token persistence, key/text/app command
framing, app-name resolution, and Wake-on-LAN packet construction.

Python strings are modelled as Lean `String`s; the ASCII case maps
`str.upper` / `str.lower` are modelled character-wise (Python agrees with
this model on all ASCII input, which is what the key tables and key names
use).  Side effects are made explicit: the token file is a record, the
websocket transport is an oracle value describing what the network did,
and transmitted frames are returned as values.
-/

namespace SamsungTVRemote

/-! ## Python string primitives (ASCII model) -/

/-- Character-wise model of Python `str.upper` (ASCII letters only). -/
def pyUpperChar (c : Char) : Char :=
  if 97 ≤ c.toNat ∧ c.toNat ≤ 122 then Char.ofNat (c.toNat - 32) else c

/-- Character-wise model of Python `str.lower` (ASCII letters only). -/
def pyLowerChar (c : Char) : Char :=
  if 65 ≤ c.toNat ∧ c.toNat ≤ 90 then Char.ofNat (c.toNat + 32) else c

/-- Model of Python `s.upper()` on ASCII strings. -/
def pyUpper (s : String) : String := ⟨s.data.map pyUpperChar⟩

/-- Model of Python `s.lower()` on ASCII strings. -/
def pyLower (s : String) : String := ⟨s.data.map pyLowerChar⟩

/-- Does the character list `pat` occur at the head of `l`? -/
def headMatches : List Char → List Char → Bool
  | _, [] => true
  | [], _ :: _ => false
  | a :: as, b :: bs => a = b && headMatches as bs

/-- Model of Python `s.startswith(pat)`. -/
def pyStartswith (s pat : String) : Bool := headMatches s.data pat.data

/-! ## JSON values

Only strings and objects appear in the frames this client builds, so the
JSON model has exactly those two constructors.  Python dicts preserve
insertion order and `json.dumps` serialises fields in that order, so a
frame is faithfully represented by its ordered field list. -/

inductive Json where
  | str : String → Json
  | obj : List (String × Json) → Json

/-- Field access in a JSON object (`none` on non-objects / missing key). -/
def Json.getField : Json → String → Option Json
  | .obj fields, k => fields.lookup k
  | .str _, _ => none

/-! ## Key normalization and frame construction (samsung_remote.py / play_iplayer.py)

`SamsungTV.key` (samsung_remote.py lines 112-113) and
`SamsungTVAutomation.send_key` (play_iplayer.py lines 56-57) normalize a
key name with the same two lines of Python:
`if not key.startswith("KEY_"): key = f"KEY_{key.upper()}"`. -/

def normalizeKey (key_name : String) : String :=
  if pyStartswith key_name "KEY_" then key_name else "KEY_" ++ pyUpper key_name

/-- The key-press frame built at samsung_remote.py lines 115-123 and
play_iplayer.py lines 59-67 (field order is Python dict insertion order). -/
def keyPayload (key_name : String) : Json :=
  .obj [("method", .str "ms.remote.control"),
        ("params", .obj [("Cmd", .str "Click"),
                         ("DataOfCmd", .str key_name),
                         ("Option", .str "false"),
                         ("TypeOfRemote", .str "SendRemoteKey")])]

/-- The text-input frame built at samsung_remote.py lines 133-140 and
play_iplayer.py lines 76-83. -/
def textPayload (text_b64 : String) : Json :=
  .obj [("method", .str "ms.remote.control"),
        ("params", .obj [("Cmd", .str text_b64),
                         ("DataOfCmd", .str "base64"),
                         ("TypeOfRemote", .str "SendInputString")])]

/-- The app-launch frame built at samsung_remote.py lines 152-159,
tv_controller.py lines 249-255 and play_iplayer.py lines 90-100. -/
def appPayload (app_id : String) : Json :=
  .obj [("method", .str "ms.channel.emit"),
        ("params", .obj [("event", .str "ed.apps.launch"),
                         ("to", .str "host"),
                         ("data", .obj [("appId", .str app_id),
                                        ("action_type", .str "DEEP_LINK")])])]

/-- Spec-side frame, written from the spec's wire-protocol section: key
press frame `{"method":"ms.remote.control","params":{"Cmd":"Click",
"DataOfCmd":"<KEY_CODE>","Option":"false","TypeOfRemote":"SendRemoteKey"}}`,
to be compared with the code-side `keyPayload`. -/
def specKeyPressFrame (key_code : String) : Json :=
  .obj [("method", .str "ms.remote.control"),
        ("params", .obj [("Cmd", .str "Click"),
                         ("DataOfCmd", .str key_code),
                         ("Option", .str "false"),
                         ("TypeOfRemote", .str "SendRemoteKey")])]

/-! ## samsung_remote.py: module data -/

/-- The `APPS` table of samsung_remote.py lines 20-26. -/
def APPS : List (String × String) :=
  [("iplayer", "3201602007865"),
   ("netflix", "3201907018807"),
   ("youtube", "111299001912"),
   ("prime", "3201910019365"),
   ("disney", "3201901017640")]

/-- App-name resolution performed inside `SamsungTV.app`
(samsung_remote.py line 150): `APPS.get(app_id.lower(), app_id)`. -/
def resolveAppId (app_id : String) : String :=
  (APPS.lookup (pyLower app_id)).getD app_id

/-! ## samsung_remote.py: the SamsungTV client

State of the Python object plus the token file.  `wsOpen` records
whether `self.ws` holds a websocket object (Python `None` test),
`connected` is `self._connected`.  The token file `.samsung_token` is the
only file the program touches. -/

structure FS where
  tokenFile : Option String
deriving DecidableEq

/-- `load_token` (samsung_remote.py lines 46-51): read and strip the
token file if present. -/
def load_token (fs : FS) : Option String := fs.tokenFile.map String.trim

/-- `save_token` (samsung_remote.py lines 54-58): overwrite the token
file with the token. -/
def save_token (token : String) : FS := { tokenFile := some token }

structure TVState where
  wsOpen : Bool
  token : Option String
  connected : Bool
deriving DecidableEq

/-- `SamsungTV.__init__` (samsung_remote.py lines 62-65). -/
def SamsungTV.init (fs : FS) : TVState :=
  { wsOpen := false, token := load_token fs, connected := false }

/-- The two handshake fields the code reads: `data.get("event")` and
`data.get("data", {}).get("token")`. -/
structure HandshakeMsg where
  event : Option String
  token : Option String
deriving DecidableEq

/-- Transport oracle for one `connect()` attempt: what the network and
the libraries did.
* `importErr` — `import websockets` raised `ImportError`;
* `openErr` — `websockets.connect` raised (timeout or transport error),
  so `self.ws` was not assigned;
* `recvErr` — the socket opened and `self.ws` was assigned, then
  `recv`/`wait_for` raised (timeout, transport error) or `json.loads`
  raised on a malformed payload;
* `msg m` — the socket opened and a message was received and parsed. -/
inductive ConnectEvent where
  | importErr
  | openErr
  | recvErr
  | msg : HandshakeMsg → ConnectEvent
deriving DecidableEq

/-- Python return values of `SamsungTV.connect`: `True`, `False`, or the
implicit `None` of falling off the end of the function. -/
inductive PyRet where
  | pyTrue
  | pyFalse
  | pyNone
deriving DecidableEq

structure ConnectOut where
  ret : PyRet
  st : TVState
  fs : FS
deriving DecidableEq

/-- `SamsungTV.connect` (samsung_remote.py lines 67-105).  The guard
`if new_token and new_token != self.token` is Python truthiness:
`new_token` must be non-`None` (the `some` match) and non-empty
(`t ≠ ""`) and differ from `self.token`.  When the received event is not
`"ms.channel.connect"` the function falls off the end and returns `None`.
All exceptions inside the `try` are caught and yield `return False`;
`connect` never raises to its caller. -/
def SamsungTV.connect (ev : ConnectEvent) (s : TVState) (fs : FS) : ConnectOut :=
  if s.connected then ⟨.pyTrue, s, fs⟩
  else
    match ev with
    | .importErr => ⟨.pyFalse, s, fs⟩
    | .openErr => ⟨.pyFalse, s, fs⟩
    | .recvErr => ⟨.pyFalse, { s with wsOpen := true }, fs⟩
    | .msg m =>
      let s1 := { s with wsOpen := true }
      if m.event = some "ms.channel.connect" then
        match m.token with
        | some t =>
          if t ≠ "" ∧ some t ≠ s1.token then
            ⟨.pyTrue, { s1 with token := some t, connected := true }, save_token t⟩
          else ⟨.pyTrue, { s1 with connected := true }, fs⟩
        | none => ⟨.pyTrue, { s1 with connected := true }, fs⟩
      else ⟨.pyNone, s1, fs⟩

/-- Outcome of one command coroutine (`key` / `text` / `app`).
`raised` records an uncaught exception (`AttributeError` from
`self.ws.send` when `self.ws` is `None`); `frame` is the frame actually
transmitted over the websocket, if any.  These coroutines return Python
`None` when they do not raise; they never return a success or failure
value. -/
structure CmdOut where
  raised : Bool
  frame : Option Json
  st : TVState
  fs : FS

/-- `SamsungTV.key` (samsung_remote.py lines 107-125): lazy connect when
`self._connected` is false (return value of `connect` ignored), then
normalize and send the key frame over `self.ws`. -/
def SamsungTV.key (ev : ConnectEvent) (key_name : String) (s : TVState)
    (fs : FS) : CmdOut :=
  let c := if s.connected then ConnectOut.mk .pyTrue s fs
           else SamsungTV.connect ev s fs
  let kname := normalizeKey key_name
  if c.st.wsOpen then ⟨false, some (keyPayload kname), c.st, c.fs⟩
  else ⟨true, none, c.st, c.fs⟩

/-! ## UTF-8 and base64 (models of Python `str.encode` and `base64.b64encode`) -/

/-- UTF-8 encoding of one code point, as `str.encode()` produces it. -/
def utf8EncodeChar (c : Char) : List Nat :=
  let v := c.toNat
  if v < 128 then [v]
  else if v < 2048 then [192 + v / 64, 128 + v % 64]
  else if v < 65536 then [224 + v / 4096, 128 + v / 64 % 64, 128 + v % 64]
  else [240 + v / 262144, 128 + v / 4096 % 64, 128 + v / 64 % 64, 128 + v % 64]

/-- Model of Python `text.encode()`: the UTF-8 bytes of the string. -/
def utf8Encode (s : String) : List Nat := s.data.flatMap utf8EncodeChar

/-- Decode one UTF-8 continuation byte after a 2-byte starter. -/
def utf8Cont1 (b0 : Nat) : List Nat → Option (Nat × List Nat)
  | b1 :: rest =>
    if 128 ≤ b1 ∧ b1 < 192 then some ((b0 - 192) * 64 + (b1 - 128), rest)
    else none
  | [] => none

/-- Decode two UTF-8 continuation bytes after a 3-byte starter. -/
def utf8Cont2 (b0 : Nat) : List Nat → Option (Nat × List Nat)
  | b1 :: b2 :: rest =>
    if (128 ≤ b1 ∧ b1 < 192) ∧ (128 ≤ b2 ∧ b2 < 192) then
      some ((b0 - 224) * 4096 + (b1 - 128) * 64 + (b2 - 128), rest)
    else none
  | _ => none

/-- Decode three UTF-8 continuation bytes after a 4-byte starter. -/
def utf8Cont3 (b0 : Nat) : List Nat → Option (Nat × List Nat)
  | b1 :: b2 :: b3 :: rest =>
    if (128 ≤ b1 ∧ b1 < 192) ∧ (128 ≤ b2 ∧ b2 < 192) ∧ (128 ≤ b3 ∧ b3 < 192) then
      some ((b0 - 240) * 262144 + (b1 - 128) * 4096 + (b2 - 128) * 64
        + (b3 - 128), rest)
    else none
  | _ => none

/-- Decode one code point from the head of a UTF-8 byte list, returning
the code point and the remaining bytes; `none` on malformed input. -/
def utf8DecodeOne : List Nat → Option (Nat × List Nat)
  | [] => none
  | b0 :: rest =>
    if b0 < 128 then some (b0, rest)
    else if b0 < 192 then none
    else if b0 < 224 then utf8Cont1 b0 rest
    else if b0 < 240 then utf8Cont2 b0 rest
    else if b0 < 248 then utf8Cont3 b0 rest
    else none

/-- Decode a whole UTF-8 byte list; the first argument is structural
fuel (each code point consumes at least one byte, so passing the byte
list itself as fuel suffices). -/
def utf8DecodeLoop : List Nat → List Nat → Option (List Char)
  | _, [] => some []
  | [], _ :: _ => none
  | _ :: fuel, b :: l =>
    (utf8DecodeOne (b :: l)).bind
      (fun vr => (utf8DecodeLoop fuel vr.2).map (fun cs => Char.ofNat vr.1 :: cs))

/-- UTF-8 decoding of a byte list; `none` models `UnicodeDecodeError`
from `bytes.decode()`. -/
def utf8DecodeAux (l : List Nat) : Option (List Char) := utf8DecodeLoop l l

/-- Model of `bytes.decode()` on UTF-8 input. -/
def utf8DecodeStr (bs : List Nat) : Option String :=
  (utf8DecodeAux bs).map (fun cs => ⟨cs⟩)

/-- The base64 alphabet in index order. -/
def b64Alphabet : List Char :=
  "ABCDEFGHIJKLMNOPQRSTUVWXYZabcdefghijklmnopqrstuvwxyz0123456789+/".data

/-- Character of a six-bit group. -/
def encC (n : Nat) : Char := b64Alphabet.getD n 'A'

/-- Six-bit group of a base64 character; `none` for non-alphabet input. -/
def decC (c : Char) : Option Nat := b64Alphabet.indexOf? c

/-- Standard base64 encoding with `=` padding, three input bytes per
four output characters, as `base64.b64encode` produces it. -/
def b64Encode : List Nat → List Char
  | [] => []
  | [a] => [encC (a / 4), encC (a % 4 * 16), '=', '=']
  | [a, b] => [encC (a / 4), encC (a % 4 * 16 + b / 16), encC (b % 16 * 4), '=']
  | a :: b :: c :: rest =>
    encC (a / 4) :: encC (a % 4 * 16 + b / 16) :: encC (b % 16 * 4 + c / 64)
      :: encC (c % 64) :: b64Encode rest

/-- Base64 decoding; `none` models the error `base64.b64decode` raises.
Padding bits beyond the encoded bytes are discarded without checking,
as CPython does in its default non-validating mode. -/
def b64Decode : List Char → Option (List Nat)
  | [] => some []
  | c0 :: c1 :: c2 :: c3 :: rest =>
    if c2 = '=' then
      if c3 = '=' ∧ rest = [] then
        match decC c0, decC c1 with
        | some g0, some g1 => some [g0 * 4 + g1 / 16]
        | _, _ => none
      else none
    else if c3 = '=' then
      if rest = [] then
        match decC c0, decC c1, decC c2 with
        | some g0, some g1, some g2 =>
          some [g0 * 4 + g1 / 16, g1 % 16 * 16 + g2 / 4]
        | _, _, _ => none
      else none
    else
      match decC c0, decC c1, decC c2, decC c3, b64Decode rest with
      | some g0, some g1, some g2, some g3, some tl =>
        some ((g0 * 4 + g1 / 16) :: (g1 % 16 * 16 + g2 / 4)
          :: (g2 % 4 * 64 + g3) :: tl)
      | _, _, _, _, _ => none
  | _ => none

/-- Model of `base64.b64encode(text.encode()).decode()`
(samsung_remote.py line 132, play_iplayer.py line 74,
and the display-name encoding at samsung_remote.py line 77). -/
def pyB64OfStr (text : String) : String := ⟨b64Encode (utf8Encode text)⟩

/-- `SamsungTV.text` (samsung_remote.py lines 127-142): lazy connect,
then send the base64 text-input frame over `self.ws`. -/
def SamsungTV.text (ev : ConnectEvent) (text : String) (s : TVState)
    (fs : FS) : CmdOut :=
  let c := if s.connected then ConnectOut.mk .pyTrue s fs
           else SamsungTV.connect ev s fs
  let text_b64 := pyB64OfStr text
  if c.st.wsOpen then ⟨false, some (textPayload text_b64), c.st, c.fs⟩
  else ⟨true, none, c.st, c.fs⟩

/-- `SamsungTV.app` (samsung_remote.py lines 144-161): lazy connect,
resolve the app name, then send the deep-link launch frame. -/
def SamsungTV.app (ev : ConnectEvent) (app_id : String) (s : TVState)
    (fs : FS) : CmdOut :=
  let c := if s.connected then ConnectOut.mk .pyTrue s fs
           else SamsungTV.connect ev s fs
  let rid := resolveAppId app_id
  if c.st.wsOpen then ⟨false, some (appPayload rid), c.st, c.fs⟩
  else ⟨true, none, c.st, c.fs⟩

/-- `SamsungTVAutomation.send_key` (play_iplayer.py lines 54-70): no
lazy connect; normalize the key and send over `self.ws`, which raises
`AttributeError` when `self.ws` is `None` (`none` result, no frame). -/
def SamsungTVAutomation.send_key (wsOpen : Bool) (key : String) : Option Json :=
  if wsOpen then some (keyPayload (normalizeKey key)) else none

/-! ## tv_controller.py: Wake-on-LAN -/

/-- The two separator removals of tv_controller.py line 30,
`mac_address.replace(":", "").replace("-", "")`, seen as a filter on the
character list. -/
def stripSepChars (s : String) : List Char :=
  s.data.filter (fun c => ¬(c = ':' ∨ c = '-'))

/-- Value of one hexadecimal digit, as accepted by `bytes.fromhex`. -/
def hexVal (c : Char) : Option Nat :=
  if 48 ≤ c.toNat ∧ c.toNat ≤ 57 then some (c.toNat - 48)
  else if 97 ≤ c.toNat ∧ c.toNat ≤ 102 then some (c.toNat - 87)
  else if 65 ≤ c.toNat ∧ c.toNat ≤ 70 then some (c.toNat - 55)
  else none

/-- Model of Python `bytes.fromhex`: pairs of hex digits, ASCII spaces
allowed before each pair, `none` models the `ValueError` it raises. -/
def fromhexChars : List Char → Option (List Nat)
  | [] => some []
  | c :: rest =>
    if c = ' ' then fromhexChars rest
    else
      match rest with
      | [] => none
      | d :: rest2 =>
        match hexVal c, hexVal d, fromhexChars rest2 with
        | some hi, some lo, some tl => some ((hi * 16 + lo) :: tl)
        | _, _, _ => none

/-- Result of a Python call that may raise `ValueError`. -/
inductive PyResult (α : Type) where
  | ok : α → PyResult α
  | valueError : PyResult α
deriving DecidableEq

/-- A UDP datagram as handed to `sock.sendto`. -/
structure Packet where
  data : List Nat
  addr : String
  port : Nat
deriving DecidableEq

/-- `wake_on_lan` (tv_controller.py lines 28-41): strip separators,
require exactly 12 remaining characters, parse hex bytes, and broadcast
`b'\xff' * 6 + mac_bytes * 16` to `('255.255.255.255', 9)`.  A
`valueError` result means the function raised and sent nothing. -/
def wake_on_lan (mac_address : String) : PyResult Packet :=
  let mac := stripSepChars mac_address
  if mac.length ≠ 12 then .valueError
  else
    match fromhexChars mac with
    | none => .valueError
    | some mac_bytes =>
      .ok ⟨List.replicate 6 255 ++ (List.replicate 16 mac_bytes).flatten,
           "255.255.255.255", 9⟩

/-! ## tv_controller.py: the SamsungRemote client -/

namespace SamsungRemote

/-- The `KEYS` table of tv_controller.py lines 157-169. -/
def KEYS : List (String × String) :=
  [("power", "KEY_POWER"), ("poweroff", "KEY_POWEROFF"),
   ("up", "KEY_UP"), ("down", "KEY_DOWN"), ("left", "KEY_LEFT"),
   ("right", "KEY_RIGHT"),
   ("enter", "KEY_ENTER"), ("return", "KEY_RETURN"), ("exit", "KEY_EXIT"),
   ("home", "KEY_HOME"), ("menu", "KEY_MENU"), ("source", "KEY_SOURCE"),
   ("volup", "KEY_VOLUP"), ("voldown", "KEY_VOLDOWN"), ("mute", "KEY_MUTE"),
   ("chup", "KEY_CHUP"), ("chdown", "KEY_CHDOWN"),
   ("0", "KEY_0"), ("1", "KEY_1"), ("2", "KEY_2"), ("3", "KEY_3"),
   ("4", "KEY_4"), ("5", "KEY_5"), ("6", "KEY_6"), ("7", "KEY_7"),
   ("8", "KEY_8"), ("9", "KEY_9"),
   ("play", "KEY_PLAY"), ("pause", "KEY_PAUSE"), ("stop", "KEY_STOP"),
   ("red", "KEY_RED"), ("green", "KEY_GREEN"), ("yellow", "KEY_YELLOW"),
   ("blue", "KEY_BLUE"),
   ("apps", "KEY_APPS"), ("info", "KEY_INFO"), ("guide", "KEY_GUIDE")]

/-- The `APPS` table of tv_controller.py lines 171-175 (no iplayer entry). -/
def APPS : List (String × String) :=
  [("netflix", "3201907018807"), ("youtube", "111299001912"),
   ("prime", "3201910019365"), ("disney", "3201901017640"),
   ("plex", "3201512006963"), ("spotify", "3201606009684")]

/-- Key resolution of `SamsungRemote.send_key` (tv_controller.py line
233): `self.KEYS.get(key.lower(), f"KEY_{key.upper()}")`. -/
def keyCode (key : String) : String :=
  (KEYS.lookup (pyLower key)).getD ("KEY_" ++ pyUpper key)

/-- App resolution of `SamsungRemote.launch_app` (tv_controller.py line
248): `self.APPS.get(app_name.lower(), app_name)`. -/
def resolveAppId (app_name : String) : String :=
  (APPS.lookup (pyLower app_name)).getD app_name

/-- State of a `SamsungRemote` relevant to its send operations: whether
`self.ws` holds a websocket. -/
structure RState where
  wsOpen : Bool
deriving DecidableEq

/-- Result of `send_key` / `launch_app`: the Python boolean returned and
the frame transmitted, if any. -/
structure SendOut where
  ret : Bool
  frame : Option Json

/-- `SamsungRemote.send_key` (tv_controller.py lines 230-243):
`if not self.ws: return False`, otherwise build and send the key frame
and return `True`.  There is no connect call in this method; the state
is left untouched. -/
def send_key (st : RState) (key : String) : SendOut :=
  if st.wsOpen then ⟨true, some (keyPayload (keyCode key))⟩
  else ⟨false, none⟩

/-- `SamsungRemote.launch_app` (tv_controller.py lines 245-258): same
guard, then the deep-link launch frame.  No connect call. -/
def launch_app (st : RState) (app_name : String) : SendOut :=
  if st.wsOpen then ⟨true, some (appPayload (resolveAppId app_name))⟩
  else ⟨false, none⟩

end SamsungRemote

/-! ## Helper lemmas -/

theorem toNat_ofNat_of_valid (n : Nat) (h : n.isValidChar) :
    (Char.ofNat n).toNat = n := by
  simp [Char.ofNat, h, Char.ofNatAux, Char.toNat, UInt32.toNat]

theorem pyUpperChar_pyLowerChar (c : Char) :
    pyUpperChar (pyLowerChar c) = pyUpperChar c := by
  unfold pyLowerChar pyUpperChar
  by_cases h : 65 ≤ c.toNat ∧ c.toNat ≤ 90
  · rw [if_pos h]
    have hvalid : (c.toNat + 32).isValidChar := by
      left
      have : c.toNat + 32 ≤ 122 := by omega
      omega
    have htn : (Char.ofNat (c.toNat + 32)).toNat = c.toNat + 32 :=
      toNat_ofNat_of_valid _ hvalid
    rw [if_pos (by omega), if_neg (by omega), htn]
    have : c.toNat + 32 - 32 = c.toNat := by omega
    rw [this, Char.ofNat_toNat]
  · rw [if_neg h]

theorem pyUpper_eq_of_pyLower_eq {x y : String} (h : pyLower x = pyLower y) :
    pyUpper x = pyUpper y := by
  have hd : x.data.map pyLowerChar = y.data.map pyLowerChar :=
    congrArg String.data h
  unfold pyUpper
  have hx : x.data.map pyUpperChar = (x.data.map pyLowerChar).map pyUpperChar := by
    rw [List.map_map]
    exact (List.map_congr_left fun c _ => (pyUpperChar_pyLowerChar c).symm)
  have hy : y.data.map pyUpperChar = (y.data.map pyLowerChar).map pyUpperChar := by
    rw [List.map_map]
    exact (List.map_congr_left fun c _ => (pyUpperChar_pyLowerChar c).symm)
  rw [hx, hy, hd]

theorem headMatches_append (pat rest : List Char) :
    headMatches (pat ++ rest) pat = true := by
  induction pat with
  | nil => cases rest <;> rfl
  | cons a as ih => simp [headMatches, ih]

theorem pyStartswith_append (pat s : String) :
    pyStartswith (pat ++ s) pat = true := by
  unfold pyStartswith
  rw [String.data_append]
  exact headMatches_append pat.data s.data

/-- If a lookup in an association list succeeds, the value is one of the
listed values. -/
theorem lookup_mem_values {α β : Type} [BEq α] [LawfulBEq α]
    (l : List (α × β)) (k : α) (v : β) (h : l.lookup k = some v) :
    v ∈ l.map Prod.snd := by
  induction l with
  | nil => simp [List.lookup] at h
  | cons p ps ih =>
    rw [List.lookup] at h
    by_cases hk : k == p.1
    · simp [hk] at h
      simp [h.symm]
    · simp [hk] at h
      simp [ih h]

/-! ## Claim C10 -/

/-- Claim C10: in the `SamsungRemote` client, `send_key` and
`launch_app` called with no open session (`self.ws` is `None`) return
`False` and transmit no frame.  The method bodies contain no connect
call at all (their embeddings take no transport oracle), so no
auto-connect is attempted and the state is untouched. -/
theorem claim_C10_no_session_no_frame (key app_name : String) :
    SamsungRemote.send_key ⟨false⟩ key = ⟨false, none⟩ ∧
    SamsungRemote.launch_app ⟨false⟩ app_name = ⟨false, none⟩ :=
  ⟨rfl, rfl⟩

/-! ## Claim C4 -/

/-- Claim C4 counterexample: the lookup-table normalization of
`SamsungRemote.send_key` is not idempotent: `"up"` normalizes to
`"KEY_UP"`, but normalizing `"KEY_UP"` again yields `"KEY_KEY_UP"`. -/
theorem claim_C4_counterexample :
    SamsungRemote.keyCode "up" = "KEY_UP" ∧
    SamsungRemote.keyCode (SamsungRemote.keyCode "up") = "KEY_KEY_UP" ∧
    SamsungRemote.keyCode (SamsungRemote.keyCode "up") ≠ SamsungRemote.keyCode "up" :=
  ⟨by decide, by decide, by decide⟩

/-- Claim C4 (amended): the prefix-check normalization
(`SamsungTV.key` / `SamsungTVAutomation.send_key`) is idempotent and
always yields a `KEY_`-prefixed result; the lookup-table normalization
(`SamsungRemote.send_key`) always yields a `KEY_`-prefixed result but is
not idempotent. -/
theorem claim_C4_normalization_amended :
    (∀ x, normalizeKey (normalizeKey x) = normalizeKey x) ∧
    (∀ x, pyStartswith (normalizeKey x) "KEY_" = true) ∧
    (∀ x, pyStartswith (SamsungRemote.keyCode x) "KEY_" = true) := by
  have hpre : ∀ x, pyStartswith (normalizeKey x) "KEY_" = true := by
    intro x
    unfold normalizeKey
    by_cases h : pyStartswith x "KEY_" = true
    · rw [if_pos h]; exact h
    · rw [if_neg h]; exact pyStartswith_append "KEY_" (pyUpper x)
  have hfix : ∀ y, pyStartswith y "KEY_" = true → normalizeKey y = y := by
    intro y hy
    unfold normalizeKey
    rw [if_pos hy]
  refine ⟨?_, hpre, ?_⟩
  · intro x
    exact hfix _ (hpre x)
  · intro x
    unfold SamsungRemote.keyCode
    cases hl : SamsungRemote.KEYS.lookup (pyLower x) with
    | none => exact pyStartswith_append "KEY_" (pyUpper x)
    | some v =>
      have hv : v ∈ SamsungRemote.KEYS.map Prod.snd :=
        lookup_mem_values SamsungRemote.KEYS (pyLower x) v hl
      have hall : ∀ w ∈ SamsungRemote.KEYS.map Prod.snd,
          pyStartswith w "KEY_" = true := by decide
      exact hall v hv

/-! ## Claim C5 -/

/-- Claim C5 counterexample: `sendKey` normalization in the prefix-check
form (`SamsungTV.key`, `SamsungTVAutomation.send_key`) is not
case-insensitive: `"KEY_UP"` and `"key_up"` are equal up to letter case
but normalize to the different key codes `"KEY_UP"` and `"KEY_KEY_UP"`,
so different `DataOfCmd` values are transmitted. -/
theorem claim_C5_counterexample :
    pyLower "KEY_UP" = pyLower "key_up" ∧
    normalizeKey "KEY_UP" = "KEY_UP" ∧
    normalizeKey "key_up" = "KEY_KEY_UP" ∧
    normalizeKey "KEY_UP" ≠ normalizeKey "key_up" :=
  ⟨by decide, by decide, by decide, by decide⟩

/-- Claim C5 (amended): the lookup-table form (`SamsungRemote.keyCode`)
is case-insensitive for every pair of names equal up to (ASCII) letter
case; the prefix-check form (`normalizeKey`) is case-insensitive only
for pairs in which neither name already starts with `"KEY_"`. -/
theorem claim_C5_case_insensitive_amended :
    (∀ x y, pyLower x = pyLower y →
      SamsungRemote.keyCode x = SamsungRemote.keyCode y) ∧
    (∀ x y, pyLower x = pyLower y →
      pyStartswith x "KEY_" = false → pyStartswith y "KEY_" = false →
      normalizeKey x = normalizeKey y) := by
  constructor
  · intro x y h
    unfold SamsungRemote.keyCode
    rw [h, pyUpper_eq_of_pyLower_eq h]
  · intro x y h hx hy
    unfold normalizeKey
    rw [hx, hy]
    simp [pyUpper_eq_of_pyLower_eq h]

/-- Claim C5 witness: concrete instances of both halves of the amended
statement. -/
theorem claim_C5_witness :
    (pyLower "ENTER" = pyLower "enter" ∧
      SamsungRemote.keyCode "ENTER" = SamsungRemote.keyCode "enter") ∧
    (pyLower "Enter" = pyLower "enter" ∧
      pyStartswith "Enter" "KEY_" = false ∧
      pyStartswith "enter" "KEY_" = false ∧
      normalizeKey "Enter" = normalizeKey "enter") :=
  ⟨⟨by decide, claim_C5_case_insensitive_amended.1 "ENTER" "enter" (by decide)⟩,
   ⟨by decide, by decide, by decide,
    claim_C5_case_insensitive_amended.2 "Enter" "enter" (by decide) (by decide)
      (by decide)⟩⟩

/-! ## Claim C6 -/

/-- Claim C6: every frame the key-press operation transmits — whether
by `SamsungTV.key` (with its lazy connect) or by
`SamsungTVAutomation.send_key` — is exactly the spec's key-press JSON
object with the normalized key code as `DataOfCmd` and no other
fields. -/
theorem claim_C6_key_frame_exact :
    (∀ ev key_name s fs j, (SamsungTV.key ev key_name s fs).frame = some j →
      j = specKeyPressFrame (normalizeKey key_name)) ∧
    (∀ wsOpen key j, SamsungTVAutomation.send_key wsOpen key = some j →
      j = specKeyPressFrame (normalizeKey key)) := by
  constructor
  · intro ev key_name s fs j h
    unfold SamsungTV.key at h
    dsimp only at h
    split at h <;> split at h <;> dsimp only at h
    all_goals
      first
      | (injection h with h1; rw [← h1]; rfl)
      | exact Option.noConfusion h
  · intro wsOpen key j h
    unfold SamsungTVAutomation.send_key at h
    split at h
    · injection h with h1
      rw [← h1]
      rfl
    · exact Option.noConfusion h

/-- Claim C6 witness: a concrete key press through the connected client
transmits exactly the spec frame. -/
theorem claim_C6_witness :
    (SamsungTV.key (.msg ⟨some "ms.channel.connect", some "tok"⟩) "enter"
        ⟨false, none, false⟩ ⟨none⟩).frame = some (keyPayload "KEY_ENTER") ∧
    keyPayload "KEY_ENTER" = specKeyPressFrame (normalizeKey "enter") :=
  ⟨rfl, claim_C6_key_frame_exact.1 (.msg ⟨some "ms.channel.connect", some "tok"⟩)
    "enter" ⟨false, none, false⟩ ⟨none⟩ (keyPayload "KEY_ENTER") rfl⟩

/-! ## Claim C7 -/

/-- Claim C7 counterexample: the `SamsungRemote` client of
tv_controller.py — one of the two launchers the claim covers — has no
`"iplayer"` entry in its `APPS` table, so `"iplayer"` does NOT resolve
to `"3201602007865"` there: it passes through unchanged into the launch
frame. -/
theorem claim_C7_counterexample :
    SamsungRemote.resolveAppId "iplayer" = "iplayer" ∧
    SamsungRemote.resolveAppId "iplayer" ≠ "3201602007865" ∧
    SamsungRemote.launch_app ⟨true⟩ "iplayer"
      = ⟨true, some (appPayload "iplayer")⟩ :=
  ⟨by decide, by decide, rfl⟩

/-- Claim C7 (amended): in the `SamsungTV` client of samsung_remote.py,
`"iplayer"` in any letter case resolves to `"3201602007865"` and any
name absent from its `APPS` table passes through unchanged; in the
`SamsungRemote` client of tv_controller.py, whose `APPS` table has no
iplayer entry, `"iplayer"` itself passes through unchanged as the app
ID, as does any other name absent from that table. -/
theorem claim_C7_app_resolution_amended :
    (∀ s, pyLower s = "iplayer" → resolveAppId s = "3201602007865") ∧
    resolveAppId "myapp123" = "myapp123" ∧
    (∀ s, APPS.lookup (pyLower s) = none → resolveAppId s = s) ∧
    SamsungRemote.resolveAppId "iplayer" = "iplayer" ∧
    (∀ s, SamsungRemote.APPS.lookup (pyLower s) = none →
      SamsungRemote.resolveAppId s = s) := by
  refine ⟨?_, by decide, ?_, by decide, ?_⟩
  · intro s h
    unfold resolveAppId
    rw [h]
    rfl
  · intro s h
    unfold resolveAppId
    rw [h]
    rfl
  · intro s h
    unfold SamsungRemote.resolveAppId
    rw [h]
    rfl

/-- Claim C7 witness: concrete instances of the quantified parts of the
amended statement. -/
theorem claim_C7_witness :
    (pyLower "IPLAYER" = "iplayer" ∧ resolveAppId "IPLAYER" = "3201602007865") ∧
    (APPS.lookup (pyLower "myapp123") = none ∧
      resolveAppId "myapp123" = "myapp123") ∧
    (SamsungRemote.APPS.lookup (pyLower "myapp123") = none ∧
      SamsungRemote.resolveAppId "myapp123" = "myapp123") :=
  ⟨⟨by decide, claim_C7_app_resolution_amended.1 "IPLAYER" (by decide)⟩,
   ⟨by decide, claim_C7_app_resolution_amended.2.2.1 "myapp123" (by decide)⟩,
   ⟨by decide, claim_C7_app_resolution_amended.2.2.2.2 "myapp123" (by decide)⟩⟩

/-! ## Claim C1 -/

/-- Claim C1 counterexample: with no open session, `SamsungTV.key`
does attempt an internal connect, but when that connect fails (here:
the handshake message has a non-matching event type, so `connect`
falls through and returns `None`), the key command does NOT return
failure and DOES transmit its frame over the opened, unauthenticated
socket. -/
theorem claim_C1_counterexample :
    (SamsungTV.connect (.msg ⟨some "ms.channel.unauthorized", none⟩)
        ⟨false, none, false⟩ ⟨none⟩).ret ≠ .pyTrue ∧
    (SamsungTV.key (.msg ⟨some "ms.channel.unauthorized", none⟩) "enter"
        ⟨false, none, false⟩ ⟨none⟩).raised = false ∧
    (SamsungTV.key (.msg ⟨some "ms.channel.unauthorized", none⟩) "enter"
        ⟨false, none, false⟩ ⟨none⟩).frame = some (keyPayload "KEY_ENTER") :=
  ⟨by decide, by decide, rfl⟩

/-- Claim C1 (amended): each command operation (`key`, `text`, `app`)
invoked with `_connected = False` performs an internal connect first,
but it ignores the connect result.  If the connect failed before a
socket was opened (missing websockets dependency, or an open error with
no previous socket), the command raises `AttributeError` from
`None.send` and transmits no frame — it does not return a failure
value.  If the connect failed after the socket opened (receive
error/malformed payload, or a handshake event of non-matching type),
the command transmits its frame anyway over the unauthenticated
socket. -/
theorem claim_C1_lazy_connect_amended (ev : ConnectEvent)
    (name txt app_id : String) (s : TVState) (fs : FS)
    (hc : s.connected = false) :
    (s.wsOpen = false → ev = .importErr ∨ ev = .openErr →
      (SamsungTV.key ev name s fs).raised = true ∧
      (SamsungTV.key ev name s fs).frame = none ∧
      (SamsungTV.text ev txt s fs).raised = true ∧
      (SamsungTV.text ev txt s fs).frame = none ∧
      (SamsungTV.app ev app_id s fs).raised = true ∧
      (SamsungTV.app ev app_id s fs).frame = none) ∧
    (ev = .recvErr →
      (SamsungTV.connect ev s fs).ret = .pyFalse ∧
      (SamsungTV.key ev name s fs).frame
        = some (keyPayload (normalizeKey name)) ∧
      (SamsungTV.text ev txt s fs).frame
        = some (textPayload (pyB64OfStr txt)) ∧
      (SamsungTV.app ev app_id s fs).frame
        = some (appPayload (resolveAppId app_id))) ∧
    (∀ m, ev = .msg m → m.event ≠ some "ms.channel.connect" →
      (SamsungTV.connect ev s fs).ret = .pyNone ∧
      (SamsungTV.key ev name s fs).frame
        = some (keyPayload (normalizeKey name)) ∧
      (SamsungTV.text ev txt s fs).frame
        = some (textPayload (pyB64OfStr txt)) ∧
      (SamsungTV.app ev app_id s fs).frame
        = some (appPayload (resolveAppId app_id))) := by
  refine ⟨?_, ?_, ?_⟩
  · intro hw hev
    rcases hev with hev | hev <;> subst hev <;>
      simp [SamsungTV.key, SamsungTV.text, SamsungTV.app, SamsungTV.connect,
        hc, hw]
  · intro hev
    subst hev
    simp [SamsungTV.key, SamsungTV.text, SamsungTV.app, SamsungTV.connect, hc]
  · intro m hev hm
    subst hev
    simp [SamsungTV.key, SamsungTV.text, SamsungTV.app, SamsungTV.connect,
      hc, hm]

/-- Claim C1 witness: the amended statement applied at concrete inputs,
once for a pre-socket failure and once for a failed handshake. -/
theorem claim_C1_witness :
    ((⟨false, none, false⟩ : TVState).connected = false ∧
      (⟨false, none, false⟩ : TVState).wsOpen = false ∧
      (SamsungTV.key .importErr "enter" ⟨false, none, false⟩ ⟨none⟩).raised
        = true ∧
      (SamsungTV.key .importErr "enter" ⟨false, none, false⟩ ⟨none⟩).frame
        = none) ∧
    ((⟨some "ms.channel.unauthorized", none⟩ : HandshakeMsg).event
        ≠ some "ms.channel.connect" ∧
      (SamsungTV.connect (.msg ⟨some "ms.channel.unauthorized", none⟩)
        ⟨false, none, false⟩ ⟨none⟩).ret = .pyNone ∧
      (SamsungTV.text (.msg ⟨some "ms.channel.unauthorized", none⟩) "Hi"
        ⟨false, none, false⟩ ⟨none⟩).frame
        = some (textPayload (pyB64OfStr "Hi"))) :=
  ⟨⟨rfl, rfl,
    ((claim_C1_lazy_connect_amended .importErr "enter" "Hi" "iplayer"
      ⟨false, none, false⟩ ⟨none⟩ rfl).1 rfl (Or.inl rfl)).1,
    ((claim_C1_lazy_connect_amended .importErr "enter" "Hi" "iplayer"
      ⟨false, none, false⟩ ⟨none⟩ rfl).1 rfl (Or.inl rfl)).2.1⟩,
   ⟨by decide,
    ((claim_C1_lazy_connect_amended (.msg ⟨some "ms.channel.unauthorized", none⟩)
      "enter" "Hi" "iplayer" ⟨false, none, false⟩ ⟨none⟩ rfl).2.2
      ⟨some "ms.channel.unauthorized", none⟩ rfl (by decide)).1,
    ((claim_C1_lazy_connect_amended (.msg ⟨some "ms.channel.unauthorized", none⟩)
      "enter" "Hi" "iplayer" ⟨false, none, false⟩ ⟨none⟩ rfl).2.2
      ⟨some "ms.channel.unauthorized", none⟩ rfl (by decide)).2.2.1⟩⟩

/-! ## Claim C2 -/

/-- Claim C2 counterexample: a successful handshake carrying the token
`""` — a token differing from the held token `"abc"` — updates neither
the in-memory token nor the token file, because the code's guard
`if new_token and new_token != self.token` treats the empty string as
falsy.  The claim as stated would require both to become `""`. -/
theorem claim_C2_counterexample :
    (SamsungTV.connect (.msg ⟨some "ms.channel.connect", some ""⟩)
        ⟨false, some "abc", false⟩ ⟨some "abc"⟩).fs.tokenFile = some "abc" ∧
    (SamsungTV.connect (.msg ⟨some "ms.channel.connect", some ""⟩)
        ⟨false, some "abc", false⟩ ⟨some "abc"⟩).st.token = some "abc" ∧
    some "" ≠ some "abc" :=
  ⟨by decide, by decide, by decide⟩

/-- Claim C2 (amended): after a successful handshake whose payload
carries a NON-EMPTY token `t` differing from the held token, both the
in-memory token and the persisted token file equal `t`; a handshake
carrying a token equal to the held one, an empty token, or no token at
all leaves the token file and the in-memory token unchanged (no write
occurs). -/
theorem claim_C2_token_persistence_amended (s : TVState) (fs : FS)
    (m : HandshakeMsg) (hc : s.connected = false)
    (he : m.event = some "ms.channel.connect") :
    (∀ t, m.token = some t → t ≠ "" → some t ≠ s.token →
      (SamsungTV.connect (.msg m) s fs).st.token = some t ∧
      (SamsungTV.connect (.msg m) s fs).fs = save_token t) ∧
    (∀ t, m.token = some t → (t = "" ∨ some t = s.token) →
      (SamsungTV.connect (.msg m) s fs).fs = fs ∧
      (SamsungTV.connect (.msg m) s fs).st.token = s.token) ∧
    (m.token = none →
      (SamsungTV.connect (.msg m) s fs).fs = fs ∧
      (SamsungTV.connect (.msg m) s fs).st.token = s.token) := by
  refine ⟨?_, ?_, ?_⟩
  · intro t ht hne hdiff
    simp [SamsungTV.connect, hc, he, ht, hne, hdiff]
  · intro t ht hsame
    have hneg : ¬(t ≠ "" ∧ some t ≠ s.token) := by
      rcases hsame with hsame | hsame
      · intro hcontra
        exact hcontra.1 hsame
      · intro hcontra
        exact hcontra.2 hsame
    simp [SamsungTV.connect, hc, he, ht, hneg]
  · intro hnone
    simp [SamsungTV.connect, hc, he, hnone]

/-- Claim C2 witness: a handshake with new token `"t2"` over held token
`"t1"` persists `"t2"`; an equal token and an absent token leave the
file unchanged. -/
theorem claim_C2_witness :
    ((SamsungTV.connect (.msg ⟨some "ms.channel.connect", some "t2"⟩)
        ⟨false, some "t1", false⟩ ⟨some "t1"⟩).st.token = some "t2" ∧
      (SamsungTV.connect (.msg ⟨some "ms.channel.connect", some "t2"⟩)
        ⟨false, some "t1", false⟩ ⟨some "t1"⟩).fs = save_token "t2") ∧
    ((SamsungTV.connect (.msg ⟨some "ms.channel.connect", some "t1"⟩)
        ⟨false, some "t1", false⟩ ⟨some "t1"⟩).fs = ⟨some "t1"⟩) ∧
    ((SamsungTV.connect (.msg ⟨some "ms.channel.connect", none⟩)
        ⟨false, some "t1", false⟩ ⟨some "t1"⟩).fs = ⟨some "t1"⟩) :=
  ⟨(claim_C2_token_persistence_amended ⟨false, some "t1", false⟩ ⟨some "t1"⟩
      ⟨some "ms.channel.connect", some "t2"⟩ rfl rfl).1 "t2" rfl (by decide)
      (by decide),
   ((claim_C2_token_persistence_amended ⟨false, some "t1", false⟩ ⟨some "t1"⟩
      ⟨some "ms.channel.connect", some "t1"⟩ rfl rfl).2.1 "t1" rfl
      (Or.inr rfl)).1,
   ((claim_C2_token_persistence_amended ⟨false, some "t1", false⟩ ⟨some "t1"⟩
      ⟨some "ms.channel.connect", none⟩ rfl rfl).2.2 rfl).1⟩

/-! ## Claim C3 -/

/-- Claim C3 counterexample: when the single handshake message has an
event of non-matching type, `connect` falls off the end of the Python
function and returns `None` — not the boolean `False` the claim (and
the spec's "boolean failure plus a human-readable cause") requires. -/
theorem claim_C3_counterexample :
    (SamsungTV.connect (.msg ⟨some "ms.channel.ready", none⟩)
        ⟨false, none, false⟩ ⟨none⟩).ret = .pyNone ∧
    (SamsungTV.connect (.msg ⟨some "ms.channel.ready", none⟩)
        ⟨false, none, false⟩ ⟨none⟩).ret ≠ .pyFalse :=
  ⟨by decide, by decide⟩

/-- Claim C3 (amended): for every failure mode of `connect` — missing
transport dependency, open/receive errors and malformed payloads (all
caught by the `except` block), or a handshake event of non-matching
type — `connect` returns a falsy value and never raises to the caller
(every exception path is inside the `try`/`except`); the returned value
is the boolean `False` for all caught exceptions and the missing
dependency, but `None` for the non-matching event; in every failure
case `_connected` remains `False`, so the client stays disconnected. -/
theorem claim_C3_connect_failure_amended (s : TVState) (fs : FS)
    (hc : s.connected = false) :
    ((SamsungTV.connect .importErr s fs).ret = .pyFalse ∧
      (SamsungTV.connect .importErr s fs).st.connected = false) ∧
    ((SamsungTV.connect .openErr s fs).ret = .pyFalse ∧
      (SamsungTV.connect .openErr s fs).st.connected = false) ∧
    ((SamsungTV.connect .recvErr s fs).ret = .pyFalse ∧
      (SamsungTV.connect .recvErr s fs).st.connected = false) ∧
    (∀ m, m.event ≠ some "ms.channel.connect" →
      (SamsungTV.connect (.msg m) s fs).ret = .pyNone ∧
      (SamsungTV.connect (.msg m) s fs).st.connected = false) := by
  refine ⟨⟨?_, ?_⟩, ⟨?_, ?_⟩, ⟨?_, ?_⟩, ?_⟩ <;>
    try simp [SamsungTV.connect, hc]
  intro m hm
  simp [SamsungTV.connect, hc, hm]

/-- Claim C3 witness: a timed-out receive returns `False` and leaves
the client disconnected; the equivalence singles out the `None` case. -/
theorem claim_C3_witness :
    (⟨false, none, false⟩ : TVState).connected = false ∧
    (SamsungTV.connect .recvErr ⟨false, none, false⟩ ⟨none⟩).ret = .pyFalse ∧
    (SamsungTV.connect .recvErr ⟨false, none, false⟩ ⟨none⟩).st.connected
      = false :=
  ⟨rfl,
   (claim_C3_connect_failure_amended ⟨false, none, false⟩ ⟨none⟩ rfl).2.2.1.1,
   (claim_C3_connect_failure_amended ⟨false, none, false⟩ ⟨none⟩ rfl).2.2.1.2⟩


/-! ## Claim C9 -/

theorem fromhexChars_length : ∀ (n : Nat) (l : List Char), l.length = n →
    (∀ c ∈ l, (hexVal c).isSome = true) → l.length % 2 = 0 →
    ∃ bs, fromhexChars l = some bs ∧ bs.length = l.length / 2 := by
  intro n
  induction n using Nat.strong_induction_on with
  | _ n ih =>
    intro l hlen hhex heven
    match l with
    | [] => exact ⟨[], rfl, rfl⟩
    | [c] => simp at heven
    | c :: d :: rest =>
      have hc := hhex c (by simp)
      have hd := hhex d (by simp)
      have hcs : ¬(c = ' ') := by
        intro h
        rw [h] at hc
        simp [hexVal] at hc
      have hn : rest.length + 2 = n := by
        have := hlen
        simpa using this
      have heven2 : rest.length % 2 = 0 := by
        have := heven
        simp [List.length_cons] at this
        omega
      obtain ⟨bs, hbs, hblen⟩ := ih rest.length (by omega) rest rfl
        (fun x hx => hhex x (by simp [hx])) heven2
      obtain ⟨hv, hveq⟩ := Option.isSome_iff_exists.mp hc
      obtain ⟨lv, hleq⟩ := Option.isSome_iff_exists.mp hd
      refine ⟨(hv * 16 + lv) :: bs, ?_, ?_⟩
      · simp only [fromhexChars, if_neg hcs, hveq, hleq, hbs]
      · simp [hblen]
        omega

/-- Claim C9: for every MAC string whose separator-stripped form is
exactly 12 hexadecimal digits, `wake_on_lan` broadcasts to UDP port 9 a
102-byte packet of 6 bytes `0xff` followed by the 6 MAC bytes repeated
16 times; for every string whose stripped form is not 12 characters it
raises `ValueError` and sends nothing. -/
theorem claim_C9_wake_on_lan (mac_address : String) :
    ((stripSepChars mac_address).length = 12 →
      (∀ c ∈ stripSepChars mac_address, (hexVal c).isSome = true) →
      ∃ mb, fromhexChars (stripSepChars mac_address) = some mb ∧
        mb.length = 6 ∧
        wake_on_lan mac_address =
          .ok ⟨List.replicate 6 255 ++ (List.replicate 16 mb).flatten,
               "255.255.255.255", 9⟩ ∧
        (List.replicate 6 255 ++ (List.replicate 16 mb).flatten).length
          = 102) ∧
    ((stripSepChars mac_address).length ≠ 12 →
      wake_on_lan mac_address = .valueError) := by
  constructor
  · intro hlen hhex
    obtain ⟨mb, hmb, hmlen⟩ :=
      fromhexChars_length (stripSepChars mac_address).length
        (stripSepChars mac_address) rfl hhex (by rw [hlen])
    rw [hlen] at hmlen
    refine ⟨mb, hmb, by omega, ?_, ?_⟩
    · simp only [wake_on_lan]
      rw [if_neg (by simp [hlen]), hmb]
    · simp [List.length_flatten, hmlen]
  · intro hlen
    simp only [wake_on_lan]
    rw [if_pos hlen]

/-- Claim C9 witness: the repository's own TV MAC address yields the
expected 102-byte magic packet. -/
theorem claim_C9_witness :
    (stripSepChars "6c:70:cb:a4:66:b4").length = 12 ∧
    (∀ c ∈ stripSepChars "6c:70:cb:a4:66:b4", (hexVal c).isSome = true) ∧
    ∃ mb, fromhexChars (stripSepChars "6c:70:cb:a4:66:b4") = some mb ∧
      mb.length = 6 ∧
      wake_on_lan "6c:70:cb:a4:66:b4" =
        .ok ⟨List.replicate 6 255 ++ (List.replicate 16 mb).flatten,
             "255.255.255.255", 9⟩ ∧
      (List.replicate 6 255 ++ (List.replicate 16 mb).flatten).length = 102 :=
  ⟨by decide, by decide,
   (claim_C9_wake_on_lan "6c:70:cb:a4:66:b4").1 (by decide) (by decide)⟩

/-! ## Claim C8 -/

theorem decC_encC : ∀ n, n < 64 → decC (encC n) = some n := by decide

theorem encC_ne_pad : ∀ n, n < 64 → encC n ≠ '=' := by decide

theorem b64Decode_b64Encode : ∀ bs : List Nat, (∀ b ∈ bs, b < 256) →
    b64Decode (b64Encode bs) = some bs := by
  intro bs
  induction bs using b64Encode.induct with
  | case1 =>
    intro _
    rfl
  | case2 a =>
    intro h
    have ha : a < 256 := h a (by simp)
    simp only [b64Encode, b64Decode]
    rw [if_pos trivial, if_pos ⟨trivial, trivial⟩, decC_encC _ (by omega),
      decC_encC _ (by omega)]
    dsimp only
    have e1 : a / 4 * 4 + a % 4 * 16 / 16 = a := by omega
    rw [e1]
  | case3 a b =>
    intro h
    have ha : a < 256 := h a (by simp)
    have hb : b < 256 := h b (by simp)
    simp only [b64Encode, b64Decode]
    rw [if_neg (encC_ne_pad _ (by omega)), if_pos trivial, if_pos trivial,
      decC_encC _ (by omega), decC_encC _ (by omega), decC_encC _ (by omega)]
    dsimp only
    have e1 : a / 4 * 4 + (a % 4 * 16 + b / 16) / 16 = a := by omega
    have e2 : (a % 4 * 16 + b / 16) % 16 * 16 + b % 16 * 4 / 4 = b := by omega
    rw [e1, e2]
  | case4 a b c rest ih =>
    intro h
    have ha : a < 256 := h a (by simp)
    have hb : b < 256 := h b (by simp)
    have hc : c < 256 := h c (by simp)
    have htl := ih (fun x hx => h x (by simp [hx]))
    simp only [b64Encode, b64Decode]
    rw [if_neg (encC_ne_pad _ (by omega)), if_neg (encC_ne_pad _ (by omega)),
      decC_encC _ (by omega), decC_encC _ (by omega), decC_encC _ (by omega),
      decC_encC _ (by omega), htl]
    dsimp only
    have e1 : a / 4 * 4 + (a % 4 * 16 + b / 16) / 16 = a := by omega
    have e2 : (a % 4 * 16 + b / 16) % 16 * 16 + (b % 16 * 4 + c / 64) / 4 = b := by
      omega
    have e3 : (b % 16 * 4 + c / 64) % 4 * 64 + c % 64 = c := by omega
    rw [e1, e2, e3]

theorem char_toNat_lt (c : Char) : c.toNat < 1114112 := by
  rcases c.valid with h | ⟨h1, h2⟩
  · exact Nat.lt_trans h (by norm_num)
  · exact h2

theorem utf8DecodeOne_encodeChar (c : Char) (tl : List Nat) :
    utf8DecodeOne (utf8EncodeChar c ++ tl) = some (c.toNat, tl) := by
  have hv := char_toNat_lt c
  unfold utf8EncodeChar
  dsimp only
  by_cases h1 : c.toNat < 128
  · rw [if_pos h1]
    simp only [List.cons_append, List.nil_append, utf8DecodeOne]
    rw [if_pos h1]
  · rw [if_neg h1]
    by_cases h2 : c.toNat < 2048
    · rw [if_pos h2]
      simp only [List.cons_append, List.nil_append, utf8DecodeOne, utf8Cont1]
      rw [if_neg (show ¬(192 + c.toNat / 64 < 128) by omega),
        if_neg (show ¬(192 + c.toNat / 64 < 192) by omega),
        if_pos (show 192 + c.toNat / 64 < 224 by omega),
        if_pos ⟨show 128 ≤ 128 + c.toNat % 64 by omega,
          show 128 + c.toNat % 64 < 192 by omega⟩]
      have hval : (192 + c.toNat / 64 - 192) * 64 + (128 + c.toNat % 64 - 128)
          = c.toNat := by omega
      rw [hval]
    · rw [if_neg h2]
      by_cases h3 : c.toNat < 65536
      · rw [if_pos h3]
        simp only [List.cons_append, List.nil_append, utf8DecodeOne, utf8Cont2]
        rw [if_neg (show ¬(224 + c.toNat / 4096 < 128) by omega),
          if_neg (show ¬(224 + c.toNat / 4096 < 192) by omega),
          if_neg (show ¬(224 + c.toNat / 4096 < 224) by omega),
          if_pos (show 224 + c.toNat / 4096 < 240 by omega),
          if_pos ⟨⟨show 128 ≤ 128 + c.toNat / 64 % 64 by omega,
            show 128 + c.toNat / 64 % 64 < 192 by omega⟩,
            show 128 ≤ 128 + c.toNat % 64 by omega,
            show 128 + c.toNat % 64 < 192 by omega⟩]
        have hval : (224 + c.toNat / 4096 - 224) * 4096
            + (128 + c.toNat / 64 % 64 - 128) * 64
            + (128 + c.toNat % 64 - 128) = c.toNat := by omega
        rw [hval]
      · rw [if_neg h3]
        simp only [List.cons_append, List.nil_append, utf8DecodeOne, utf8Cont3]
        rw [if_neg (show ¬(240 + c.toNat / 262144 < 128) by omega),
          if_neg (show ¬(240 + c.toNat / 262144 < 192) by omega),
          if_neg (show ¬(240 + c.toNat / 262144 < 224) by omega),
          if_neg (show ¬(240 + c.toNat / 262144 < 240) by omega),
          if_pos (show 240 + c.toNat / 262144 < 248 by omega),
          if_pos ⟨⟨show 128 ≤ 128 + c.toNat / 4096 % 64 by omega,
            show 128 + c.toNat / 4096 % 64 < 192 by omega⟩,
            ⟨show 128 ≤ 128 + c.toNat / 64 % 64 by omega,
            show 128 + c.toNat / 64 % 64 < 192 by omega⟩,
            show 128 ≤ 128 + c.toNat % 64 by omega,
            show 128 + c.toNat % 64 < 192 by omega⟩]
        have hval : (240 + c.toNat / 262144 - 240) * 262144
            + (128 + c.toNat / 4096 % 64 - 128) * 4096
            + (128 + c.toNat / 64 % 64 - 128) * 64
            + (128 + c.toNat % 64 - 128) = c.toNat := by omega
        rw [hval]

theorem utf8EncodeChar_ne_nil (c : Char) : utf8EncodeChar c ≠ [] := by
  unfold utf8EncodeChar
  dsimp only
  split_ifs <;> simp

theorem utf8DecodeLoop_encode (cs : List Char) : ∀ fuel : List Nat,
    cs.length ≤ fuel.length →
    utf8DecodeLoop fuel (cs.flatMap utf8EncodeChar) = some cs := by
  induction cs with
  | nil =>
    intro fuel h
    cases fuel <;> rfl
  | cons c cs ih =>
    intro fuel h
    cases fuel with
    | nil => simp at h
    | cons f fuel =>
      rw [List.flatMap_cons]
      obtain ⟨b, l, hbl⟩ : ∃ b l,
          utf8EncodeChar c ++ cs.flatMap utf8EncodeChar = b :: l := by
        cases hec : utf8EncodeChar c with
        | nil => exact absurd hec (utf8EncodeChar_ne_nil c)
        | cons x xs => exact ⟨x, xs ++ cs.flatMap utf8EncodeChar, by simp [hec]⟩
      rw [hbl, utf8DecodeLoop, ← hbl, utf8DecodeOne_encodeChar]
      rw [Option.some_bind]
      dsimp only
      rw [ih fuel (by simpa using h)]
      rw [Char.ofNat_toNat]
      rfl

theorem length_le_flatMap_encode (cs : List Char) :
    cs.length ≤ (cs.flatMap utf8EncodeChar).length := by
  induction cs with
  | nil => simp
  | cons c cs ih =>
    rw [List.flatMap_cons]
    have h1 : 1 ≤ (utf8EncodeChar c).length := by
      cases hec : utf8EncodeChar c with
      | nil => exact absurd hec (utf8EncodeChar_ne_nil c)
      | cons x xs => simp
    simp only [List.length_cons, List.length_append]
    omega

theorem utf8DecodeAux_utf8Encode_data (l : List Char) :
    utf8DecodeAux (l.flatMap utf8EncodeChar) = some l :=
  utf8DecodeLoop_encode l (l.flatMap utf8EncodeChar) (length_le_flatMap_encode l)

theorem utf8EncodeChar_lt256 (c : Char) : ∀ b ∈ utf8EncodeChar c, b < 256 := by
  have hv := char_toNat_lt c
  unfold utf8EncodeChar
  dsimp only
  by_cases h1 : c.toNat < 128
  · rw [if_pos h1]
    intro b hb
    simp at hb
    omega
  · rw [if_neg h1]
    by_cases h2 : c.toNat < 2048
    · rw [if_pos h2]
      intro b hb
      simp at hb
      rcases hb with rfl | rfl <;> omega
    · rw [if_neg h2]
      by_cases h3 : c.toNat < 65536
      · rw [if_pos h3]
        intro b hb
        simp at hb
        rcases hb with rfl | rfl | rfl <;> omega
      · rw [if_neg h3]
        intro b hb
        simp at hb
        rcases hb with rfl | rfl | rfl | rfl <;> omega

theorem utf8Encode_lt256 (s : String) : ∀ b ∈ utf8Encode s, b < 256 := by
  intro b hb
  unfold utf8Encode at hb
  rw [List.mem_flatMap] at hb
  obtain ⟨c, _, hc⟩ := hb
  exact utf8EncodeChar_lt256 c b hc

/-- Claim C8: the `Cmd` field of every transmitted text-input frame is
the base64 encoding of the input string's UTF-8 bytes, and decoding
that field (base64 decode, then UTF-8 decode) recovers the original
string exactly, for every input string. -/
theorem claim_C8_text_base64_roundtrip (ev : ConnectEvent) (txt : String)
    (st : TVState) (fs : FS) (j : Json)
    (h : (SamsungTV.text ev txt st fs).frame = some j) :
    (j.getField "params").bind (fun p => Json.getField p "Cmd")
      = some (.str (pyB64OfStr txt)) ∧
    (pyB64OfStr txt).data = b64Encode (utf8Encode txt) ∧
    (b64Decode (pyB64OfStr txt).data).bind utf8DecodeStr = some txt := by
  have hj : j = textPayload (pyB64OfStr txt) := by
    unfold SamsungTV.text at h
    dsimp only at h
    split at h <;> split at h <;> dsimp only at h
    all_goals
      first
      | (injection h with h1; exact h1.symm)
      | exact Option.noConfusion h
  subst hj
  refine ⟨rfl, rfl, ?_⟩
  show (b64Decode (b64Encode (utf8Encode txt))).bind utf8DecodeStr = some txt
  rw [b64Decode_b64Encode _ (utf8Encode_lt256 txt)]
  show utf8DecodeStr (utf8Encode txt) = some txt
  unfold utf8DecodeStr utf8Encode
  rw [utf8DecodeAux_utf8Encode_data]
  rfl

/-- Claim C8 witness: a concrete text command carries base64 in `Cmd`
and decodes back to the input. -/
theorem claim_C8_witness :
    (SamsungTV.text (.msg ⟨some "ms.channel.connect", some "tok"⟩) "Hi"
        ⟨false, none, false⟩ ⟨none⟩).frame
      = some (textPayload (pyB64OfStr "Hi")) ∧
    ((textPayload (pyB64OfStr "Hi")).getField "params").bind
        (fun p => Json.getField p "Cmd") = some (.str (pyB64OfStr "Hi")) ∧
    pyB64OfStr "Hi" = "SGk=" ∧
    (b64Decode (pyB64OfStr "Hi").data).bind utf8DecodeStr = some "Hi" :=
  ⟨rfl,
   (claim_C8_text_base64_roundtrip (.msg ⟨some "ms.channel.connect", some "tok"⟩)
      "Hi" ⟨false, none, false⟩ ⟨none⟩ (textPayload (pyB64OfStr "Hi")) rfl).1,
   by decide,
   (claim_C8_text_base64_roundtrip (.msg ⟨some "ms.channel.connect", some "tok"⟩)
      "Hi" ⟨false, none, false⟩ ⟨none⟩ (textPayload (pyB64OfStr "Hi")) rfl).2.2⟩


end SamsungTVRemote
